import Mathlib

/-
  Shallow embedding of the reconciliation core of the Xray_bot repository:
  the credential store entities (db.py), the lifecycle predicates on
  `UserKey` (db.py), the per-identity and full synchronization paths of
  `XrayUserSyncService` (sync_service.py), and the chat handlers that
  create and renew keys (bot.py).  The proxy daemon is modelled
  abstractly as a pair of result functions, since the code only observes
  the boolean outcome of `add_vless_user` / `remove_vless_user`; every
  daemon call the code makes is additionally recorded in an action trace
  so that ordering claims can be stated.
-/

namespace XrayBot

/-- One row of the `user_keys` table (db.py, class `UserKey`).
Timestamps are modelled as integer seconds; byte counters as integers. -/
structure UserKey where
  id : Nat
  user_id : Nat
  uuid : String
  is_active : Bool
  created_at : Int
  expires_at : Option Int
  data_limit_bytes : Int
  used_bytes : Int
  deriving DecidableEq, Repr

/-- `UserKey.data_remaining` (db.py): `max(0, data_limit_bytes - used_bytes)`. -/
def UserKey.data_remaining (k : UserKey) : Int :=
  max 0 (k.data_limit_bytes - k.used_bytes)

/-- `UserKey.is_expired` (db.py): `expires_at and now > expires_at`;
the current time is passed explicitly. -/
def UserKey.is_expired (k : UserKey) (now : Int) : Bool :=
  match k.expires_at with
  | none => false
  | some e => decide (now > e)

/-- `UserKey.has_data` (db.py): `data_remaining > 0`. -/
def UserKey.has_data (k : UserKey) : Bool :=
  decide (k.data_remaining > 0)

/-- The lifecycle revocation predicate composed from the code's own
`UserKey` predicates: expired or out of data. -/
def shouldRevoke (k : UserKey) (now : Int) : Bool :=
  k.is_expired now || !k.has_data

/-- Modelled from the spec: the reference revocation predicate of §4.4,
`(expiresAt is set AND now > expiresAt) OR consumedBytes >= dataLimitBytes`,
stated from the spec's words for comparison with `shouldRevoke`. -/
def shouldRevokeSpec (k : UserKey) (now : Int) : Prop :=
  (∃ e, k.expires_at = some e ∧ now > e) ∨ k.data_limit_bytes ≤ k.used_bytes

/-- One row of the `users` table (db.py, class `User`); only the fields
the synchronization logic reads. -/
structure DBUser where
  id : Nat
  telegram_id : Int
  deriving DecidableEq, Repr

/-- The credential store state: the `users` and `user_keys` tables plus
the autoincrement counter for key ids. -/
structure DBState where
  users : List DBUser
  keys : List UserKey
  nextKeyId : Nat
  deriving DecidableEq, Repr

/-- The proxy daemon, modelled by the boolean outcome the code observes
from `ServerManager.add_vless_user` and `ServerManager.remove_vless_user`. -/
structure Daemon where
  addOk : String → String → Bool
  removeOk : String → Bool

/-- A call issued to the proxy daemon, recorded in order of issue. -/
inductive XrayAction where
  | provision (email : String) (uuid_str : String)
  | remove (email : String)
  deriving DecidableEq, Repr

/-- Whether an action is a provisioning call. -/
def XrayAction.isProvision : XrayAction → Bool
  | XrayAction.provision _ _ => true
  | XrayAction.remove _ => false

/-- The display tag `f"user_{user.id}@xray.com"` built from the internal
user id (sync_service.py, bot.py renew path). -/
def displayTag (uid : Nat) : String :=
  "user_" ++ toString uid ++ "@xray.com"

/-- The display tag built from the Telegram id, as used by the chat
create flow in `check_subscription_callback` (bot.py line 230). -/
def displayTagTg (tg : Int) : String :=
  "user_" ++ toString tg ++ "@xray.com"

/-- Errors raised by the persistence layer. -/
inductive StoreError where
  | connectionFailure
  | constraintViolation
  deriving DecidableEq, Repr

/-- `create_key` (db.py lines 154-171): appends a fresh key row for the
user.  The row takes the column defaults `is_active = True` and
`used_bytes = 0`; no prior key of the user is touched. -/
def create_key (s : DBState) (user_id : Nat) (uuid_str : String) (now : Int)
    (days_valid : Int) (data_limit_gb : Int) : UserKey × DBState :=
  let key : UserKey :=
    { id := s.nextKeyId
      user_id := user_id
      uuid := uuid_str
      is_active := true
      created_at := now
      expires_at := some (now + days_valid * 86400)
      data_limit_bytes := data_limit_gb * 1073741824
      used_bytes := 0 }
  (key, { s with keys := s.keys ++ [key], nextKeyId := s.nextKeyId + 1 })

/-- `Database.generate_key` (db.py lines 298-342).  The body first
issues the deactivating UPDATE, but building the new key evaluates
`str(uuid.uuid4())` (line 316) and `uuid` is never imported in db.py, so
every call raises `NameError` before anything is committed; the `except`
branch (lines 337-340) rolls the transaction back and returns `None`.
Every call therefore leaves the store unchanged and yields no key.  (The
class holding it is additionally shadowed by the second `Database` class
at db.py line 549.) -/
def generate_key (s : DBState) (user_id : Nat) (days_valid : Int)
    (data_limit_gb : Int) : Option UserKey × DBState :=
  (none, s)

/-- The active keys the store holds for a user. -/
def activeKeysFor (s : DBState) (uid : Nat) : List UserKey :=
  s.keys.filter fun k => k.user_id == uid && k.is_active

/-- The chat-triggered create flow of `check_subscription_callback`
(bot.py lines 216-243): look the user up by Telegram id, fetch the
active key with `scalar_one_or_none` (more than one row raises, which
the outer handler catches, leaving the store unchanged), and only when
no active key exists call `add_vless_user` and, on success, insert a new
active key valid 30 days.  Every other path leaves the store unchanged. -/
def chatCreateFlow (d : Daemon) (s : DBState) (tg_id : Int) (new_uuid : String)
    (now : Int) : DBState :=
  match s.users.filter (fun u => u.telegram_id == tg_id) with
  | [db_user] =>
    match s.keys.filter (fun k => k.user_id == db_user.id && k.is_active) with
    | [] =>
      if d.addOk (displayTagTg tg_id) new_uuid then
        { s with
          keys := s.keys ++
            [{ id := s.nextKeyId
               user_id := db_user.id
               uuid := new_uuid
               is_active := true
               created_at := now
               expires_at := some (now + 30 * 86400)
               data_limit_bytes := 1073741824
               used_bytes := 0 }]
          nextKeyId := s.nextKeyId + 1 }
      else s
    | [_] => s
    | _ => s
  | _ => s

/-- The action tag of `sync_user_on_action` (sync_service.py). -/
inductive SyncAction where
  | create
  | renew
  | delete
  deriving DecidableEq, Repr

/-- `XrayUserSyncService._ensure_user_exists` (sync_service.py lines
73-92): with no active key, log and fail without any daemon call;
otherwise call `add_vless_user` once and report its outcome. -/
def ensure_user_exists (d : Daemon) (email : String) (user_keys : List UserKey) :
    Bool × List XrayAction :=
  match user_keys.find? (fun k => k.is_active) with
  | none => (false, [])
  | some k => (d.addOk email k.uuid, [XrayAction.provision email k.uuid])

/-- `XrayUserSyncService._renew_user_key` (sync_service.py lines 94-111):
call `remove_vless_user` first (result ignored), then, when an active
key exists, call `add_vless_user` with its uuid. -/
def renew_user_key (d : Daemon) (email : String) (user_keys : List UserKey) :
    Bool × List XrayAction :=
  match user_keys.find? (fun k => k.is_active) with
  | none => (false, [XrayAction.remove email])
  | some k =>
    (d.addOk email k.uuid,
     [XrayAction.remove email, XrayAction.provision email k.uuid])

/-- `XrayUserSyncService._remove_user` (sync_service.py lines 113-123). -/
def remove_user (d : Daemon) (email : String) : Bool × List XrayAction :=
  (d.removeOk email, [XrayAction.remove email])

/-- The body of `XrayUserSyncService.sync_user_on_action` (sync_service.py
lines 39-67) before its catch-all handler: fetch the user by Telegram id
(`scalar_one_or_none`; duplicates raise), fetch the user's active keys,
and dispatch on the action tag.  A failing store surfaces as an error
here. -/
def sync_user_on_action_body (d : Daemon) (st : Except StoreError DBState)
    (tg_id : Int) (action : SyncAction) :
    Except StoreError (Bool × List XrayAction) :=
  match st with
  | Except.error e => Except.error e
  | Except.ok s =>
    match s.users.filter (fun u => u.telegram_id == tg_id) with
    | [user] =>
      let user_keys := s.keys.filter fun k => k.user_id == user.id && k.is_active
      let email := displayTag user.id
      Except.ok (match action with
        | SyncAction.create => ensure_user_exists d email user_keys
        | SyncAction.renew => renew_user_key d email user_keys
        | SyncAction.delete => remove_user d email)
    | [] => Except.ok (false, [])
    | _ => Except.error StoreError.constraintViolation

/-- `XrayUserSyncService.sync_user_on_action` (sync_service.py lines
28-71): the whole body sits in `try ... except Exception: log; return
False`, so any error is converted into the flag `False` with no daemon
call made. -/
def sync_user_on_action (d : Daemon) (st : Except StoreError DBState)
    (tg_id : Int) (action : SyncAction) : Bool × List XrayAction :=
  match sync_user_on_action_body d st tg_id action with
  | Except.ok r => r
  | Except.error _ => (false, [])

/-- The summary dictionary of `full_sync`:
`{'added': 0, 'removed': 0, 'errors': 0}`. -/
structure SyncStats where
  added : Nat
  removed : Nat
  errors : Nat
  deriving DecidableEq, Repr

/-- The rows of `select(User).join(UserKey).where(UserKey.is_active)`
(sync_service.py lines 137-140): one occurrence of the user per active
key of that user (`scalars` does not deduplicate joined rows). -/
def joinUsersActive (s : DBState) : List DBUser :=
  s.users.flatMap fun u =>
    (s.keys.filter (fun k => k.user_id == u.id && k.is_active)).map fun _ => u

/-- The dictionary `{key.user_id: key}` over all active keys
(sync_service.py line 146), looked up by user id: the last active key of
the user in query order wins. -/
def lastActiveKey (keys : List UserKey) (uid : Nat) : Option UserKey :=
  (keys.filter fun k => k.user_id == uid && k.is_active).getLast?

/-- `XrayUserSyncService._get_xray_users` (sync_service.py lines
187-191): returns the empty set unconditionally. -/
def get_xray_users : List String := []

/-- The first loop of `full_sync` (sync_service.py lines 154-166): for
each joined user row, look up the active key, record the email, and when
the email is not among the observed daemon identities call
`add_vless_user`, counting a success as added and a failure as an error.
The accumulator carries the statistics, the collected emails, and the
trace of daemon calls. -/
def fullSyncAddLoop (d : Daemon) (xray_users : List String) (keys : List UserKey) :
    List DBUser → SyncStats → List String → List XrayAction →
      SyncStats × List String × List XrayAction
  | [], stats, emails, tr => (stats, emails, tr)
  | u :: rest, stats, emails, tr =>
    match lastActiveKey keys u.id with
    | none => fullSyncAddLoop d xray_users keys rest stats emails tr
    | some k =>
      let email := displayTag u.id
      if xray_users.contains email then
        fullSyncAddLoop d xray_users keys rest stats (emails ++ [email]) tr
      else if d.addOk email k.uuid then
        fullSyncAddLoop d xray_users keys rest
          { stats with added := stats.added + 1 } (emails ++ [email])
          (tr ++ [XrayAction.provision email k.uuid])
      else
        fullSyncAddLoop d xray_users keys rest
          { stats with errors := stats.errors + 1 } (emails ++ [email])
          (tr ++ [XrayAction.provision email k.uuid])

/-- The second loop of `full_sync` (sync_service.py lines 168-176): for
each observed daemon identity not backed by a store email, call
`remove_vless_user`, counting a success as removed and a failure as an
error. -/
def fullSyncRemoveLoop (d : Daemon) (db_emails : List String) :
    List String → SyncStats → List XrayAction → SyncStats × List XrayAction
  | [], stats, tr => (stats, tr)
  | e :: rest, stats, tr =>
    if db_emails.contains e then
      fullSyncRemoveLoop d db_emails rest stats tr
    else if d.removeOk e then
      fullSyncRemoveLoop d db_emails rest
        { stats with removed := stats.removed + 1 } (tr ++ [XrayAction.remove e])
    else
      fullSyncRemoveLoop d db_emails rest
        { stats with errors := stats.errors + 1 } (tr ++ [XrayAction.remove e])

/-- `XrayUserSyncService.full_sync` (sync_service.py lines 125-185):
read the joined user rows and the active-key dictionary, read the
observed daemon identities (always the empty set), run the add loop and
then the remove loop, and return the statistics.  The session performs
no write, so the store comes back unchanged. -/
def full_sync (d : Daemon) (s : DBState) : SyncStats × List XrayAction × DBState :=
  let db_users := joinUsersActive s
  let r1 := fullSyncAddLoop d get_xray_users s.keys db_users ⟨0, 0, 0⟩ [] []
  let r2 := fullSyncRemoveLoop d r1.2.1 get_xray_users r1.1 r1.2.2
  (r2.1, r2.2, s)

/-- `full_sync` including its catch-all handler (sync_service.py lines
181-185): a failing store turns into `errors += 1` on the initial
all-zero statistics. -/
def full_sync_run (d : Daemon) (st : Except StoreError DBState) : SyncStats :=
  match st with
  | Except.error _ => ⟨0, 0, 1⟩
  | Except.ok s => (full_sync d s).1

/-- The in-place row update the chat renew handler performs on the key
row it renews (bot.py lines 465-469): new uuid, new `created_at`, expiry
pushed 30 days out, `used_bytes` reset; every other row is untouched. -/
def renewRow (key_id : Nat) (new_uuid : String) (now : Int) (k : UserKey) : UserKey :=
  if k.id == key_id then
    { k with
      uuid := new_uuid
      created_at := now
      expires_at := some (now + 30 * 86400)
      used_bytes := 0 }
  else k

/-- The chat renew handler `renew_callback` (bot.py lines 424-490):
fetch the active key row by id (`scalar_one_or_none`), fetch its user,
call `remove_vless_user` then `add_vless_user` with a fresh uuid, and on
success update the SAME key row in place via `renewRow`.  Failure paths
leave the store unchanged. -/
def renew_callback (d : Daemon) (s : DBState) (key_id : Nat) (new_uuid : String)
    (now : Int) : DBState × List XrayAction :=
  match s.keys.filter (fun k => k.id == key_id && k.is_active) with
  | [key] =>
    match s.users.filter (fun u => u.id == key.user_id) with
    | [user] =>
      let email := displayTag user.id
      if d.addOk email new_uuid then
        ({ s with keys := s.keys.map (renewRow key_id new_uuid now) },
         [XrayAction.remove email, XrayAction.provision email new_uuid])
      else (s, [XrayAction.remove email])
    | _ => (s, [])
  | _ => (s, [])

/-- The outcome of `bot.get_chat_member` as observed by
`check_subscription`. -/
inductive ChatMemberResult where
  | ok (status : String)
  | err
  deriving DecidableEq, Repr

/-- `channel_username.lstrip('@')`. -/
def lstripAt (sname : String) : String :=
  String.mk (sname.toList.dropWhile fun c => c == '@')

/-- `check_subscription` (bot.py lines 72-97): a falsy channel name
(unset or empty) short-circuits to `True`; otherwise the chat platform
is queried and an error yields `False`, a normal answer yields whether
the status is member, administrator or creator. -/
def check_subscription (api : Int → String → ChatMemberResult) (user_id : Int)
    (channel_username : Option String) : Bool :=
  match channel_username with
  | none => true
  | some ch =>
    if ch == "" then true
    else
      match api user_id ("@" ++ lstripAt ch) with
      | ChatMemberResult.err => false
      | ChatMemberResult.ok status =>
        status == "member" || status == "administrator" || status == "creator"

/-- A daemon on which every call succeeds, used for concrete runs. -/
def alwaysOkDaemon : Daemon :=
  ⟨fun _ _ => true, fun _ => true⟩

/-- A chat platform on which every membership query errors. -/
def errApi : Int → String → ChatMemberResult :=
  fun _ _ => ChatMemberResult.err

lemma fullSyncAddLoop_removed (d : Daemon) (xray_users : List String)
    (keys : List UserKey) :
    ∀ rows stats emails tr,
      ((fullSyncAddLoop d xray_users keys rows stats emails tr).1).removed
        = stats.removed := by
  intro rows
  induction rows with
  | nil => intro stats emails tr; rfl
  | cons u rest ih =>
    intro stats emails tr
    cases h : lastActiveKey keys u.id with
    | none => simp [fullSyncAddLoop, h, ih]
    | some k =>
      cases hc : xray_users.contains (displayTag u.id) with
      | true =>
        have hc' : displayTag u.id ∈ xray_users := by simpa using hc
        simp [fullSyncAddLoop, h, hc', ih]
      | false =>
        have hc' : displayTag u.id ∉ xray_users := by simpa using hc
        cases ha : d.addOk (displayTag u.id) k.uuid with
        | true => simp [fullSyncAddLoop, h, hc', ha, ih]
        | false => simp [fullSyncAddLoop, h, hc', ha, ih]

lemma fullSyncAddLoop_trace_forall (d : Daemon) (xray_users : List String)
    (keys : List UserKey) :
    ∀ rows stats emails tr, tr.all XrayAction.isProvision = true →
      ((fullSyncAddLoop d xray_users keys rows stats emails tr).2.2).all
        XrayAction.isProvision = true := by
  intro rows
  induction rows with
  | nil => intro stats emails tr htr; exact htr
  | cons u rest ih =>
    intro stats emails tr htr
    cases h : lastActiveKey keys u.id with
    | none => simp only [fullSyncAddLoop, h]; exact ih stats emails tr htr
    | some k =>
      have htr' : (tr ++ [XrayAction.provision (displayTag u.id) k.uuid]).all
          XrayAction.isProvision = true := by
        simp [List.all_append, htr, XrayAction.isProvision]
      cases hc : xray_users.contains (displayTag u.id) with
      | true =>
        simp only [fullSyncAddLoop, h, hc, if_pos]
        exact ih stats (emails ++ [displayTag u.id]) tr htr
      | false =>
        cases ha : d.addOk (displayTag u.id) k.uuid with
        | true =>
          simp only [fullSyncAddLoop, h, hc, ha]
          simpa using ih _ (emails ++ [displayTag u.id]) _ htr'
        | false =>
          simp only [fullSyncAddLoop, h, hc, ha]
          simpa using ih _ (emails ++ [displayTag u.id]) _ htr'

/-- Claim C4: the observed-state enumeration `_get_xray_users` returns
the empty set unconditionally, so full reconciliation never issues an
identity-removal call and every `full_sync` summary has `removed = 0`. -/
theorem full_sync_never_removes (d : Daemon) (s : DBState) :
    get_xray_users = [] ∧ (full_sync d s).1.removed = 0
      ∧ ((full_sync d s).2.1).all XrayAction.isProvision = true := by
  refine ⟨rfl, ?_, ?_⟩
  · simpa [full_sync, get_xray_users, fullSyncRemoveLoop] using
      fullSyncAddLoop_removed d [] s.keys (joinUsersActive s) ⟨0, 0, 0⟩ [] []
  · simpa [full_sync, get_xray_users, fullSyncRemoveLoop] using
      fullSyncAddLoop_trace_forall d [] s.keys (joinUsersActive s) ⟨0, 0, 0⟩ [] [] rfl

/-- Claim C8: the composed lifecycle revocation predicate of the code's
`UserKey` properties coincides with the reference definition of the
spec, and the four boundary cases behave as the spec states: expiry one
second in the past flags the key, one second in the future does not
(absent quota exhaustion), consumption equal to the limit flags it, and
limit minus one does not (absent expiry). -/
theorem lifecycle_revocation_matches_spec (k : UserKey) (now : Int) :
    (shouldRevoke k now = true ↔ shouldRevokeSpec k now)
    ∧ (k.expires_at = some (now - 1) → shouldRevoke k now = true)
    ∧ (k.expires_at = some (now + 1) → k.used_bytes < k.data_limit_bytes →
        shouldRevoke k now = false)
    ∧ (k.used_bytes = k.data_limit_bytes → shouldRevoke k now = true)
    ∧ (k.expires_at = none → k.used_bytes = k.data_limit_bytes - 1 →
        shouldRevoke k now = false) := by
  have hq : (!k.has_data) = true ↔ k.data_limit_bytes ≤ k.used_bytes := by
    simp only [UserKey.has_data, UserKey.data_remaining, Bool.not_eq_true',
      decide_eq_false_iff_not, not_lt]
    constructor
    · intro h; have := le_max_right (0 : Int) (k.data_limit_bytes - k.used_bytes); omega
    · intro h; omega
  refine ⟨?_, ?_, ?_, ?_, ?_⟩
  · cases he : k.expires_at with
    | none =>
      simp only [shouldRevoke, UserKey.is_expired, he, Bool.false_or, shouldRevokeSpec]
      rw [hq]
      constructor
      · intro h; exact Or.inr h
      · rintro (⟨e, he2, _⟩ | h)
        · exact absurd he2 (by simp [he] at he2 ⊢)
        · exact h
    | some e =>
      simp only [shouldRevoke, UserKey.is_expired, he, shouldRevokeSpec, Bool.or_eq_true,
        decide_eq_true_eq]
      rw [hq]
      constructor
      · rintro (h | h)
        · exact Or.inl ⟨e, rfl, h⟩
        · exact Or.inr h
      · rintro (⟨e2, he2, h⟩ | h)
        · cases he2; exact Or.inl h
        · exact Or.inr h
  · intro h
    simp [shouldRevoke, UserKey.is_expired, h]
  · intro h hlt
    have hhd : k.has_data = true := by
      simp only [UserKey.has_data, UserKey.data_remaining, decide_eq_true_eq]
      have := le_max_left (0 : Int) (k.data_limit_bytes - k.used_bytes)
      omega
    simp [shouldRevoke, UserKey.is_expired, h, hhd]
  · intro h
    have : (!k.has_data) = true := hq.mpr (by omega)
    simp [shouldRevoke, this]
  · intro h hused
    have hhd : k.has_data = true := by
      simp only [UserKey.has_data, UserKey.data_remaining, decide_eq_true_eq]
      rcases le_or_lt k.data_limit_bytes k.used_bytes with hle | hlt
      · omega
      · have := le_max_left (0 : Int) (k.data_limit_bytes - k.used_bytes); omega
    simp [shouldRevoke, UserKey.is_expired, h, hhd]

/-- Claim C8 witness: the boundary cases evaluated on concrete keys. -/
theorem lifecycle_revocation_matches_spec_witness :
    shouldRevoke ⟨1, 1, "u", true, 0, some 99, 100, 0⟩ 100 = true
    ∧ shouldRevoke ⟨1, 1, "u", true, 0, some 101, 100, 0⟩ 100 = false
    ∧ shouldRevoke ⟨1, 1, "u", true, 0, none, 100, 100⟩ 0 = true
    ∧ shouldRevoke ⟨1, 1, "u", true, 0, none, 100, 99⟩ 0 = false :=
  ⟨(lifecycle_revocation_matches_spec ⟨1, 1, "u", true, 0, some 99, 100, 0⟩ 100).2.1 rfl,
   (lifecycle_revocation_matches_spec ⟨1, 1, "u", true, 0, some 101, 100, 0⟩ 100).2.2.1
     rfl (by decide),
   (lifecycle_revocation_matches_spec ⟨1, 1, "u", true, 0, none, 100, 100⟩ 0).2.2.2.1 rfl,
   (lifecycle_revocation_matches_spec ⟨1, 1, "u", true, 0, none, 100, 99⟩ 0).2.2.2.2
     rfl (by decide)⟩

/-- Claim C9 counterexample: a store failure during per-identity sync is
caught by the catch-all handler and converted into the return flag
`False` with no daemon call, instead of propagating: the body surfaces
the error, the wrapper swallows it. -/
theorem store_error_swallowed_counterexample :
    sync_user_on_action_body alwaysOkDaemon
        (Except.error StoreError.connectionFailure) 1 SyncAction.create
      = Except.error StoreError.connectionFailure
    ∧ sync_user_on_action alwaysOkDaemon
        (Except.error StoreError.connectionFailure) 1 SyncAction.create
      = (false, []) :=
  ⟨rfl, rfl⟩

/-- Claim C9 amended: store errors are logged and swallowed, never
propagated — per-identity sync converts every store failure into the
flag `False`, and full reconciliation converts it into `errors = 1` in
the summary. -/
theorem store_errors_logged_not_propagated (d : Daemon) (e : StoreError)
    (tg : Int) (a : SyncAction) :
    sync_user_on_action d (Except.error e) tg a = (false, [])
    ∧ full_sync_run d (Except.error e) = ⟨0, 0, 1⟩ :=
  ⟨rfl, rfl⟩

/-- Claim C10: with no channel configured the membership check returns
true for every user without consulting the chat platform (the result
does not depend on the platform at all), while an error from the
platform yields false. -/
theorem check_subscription_fail_open_closed :
    (∀ (api : Int → String → ChatMemberResult) (uid : Int),
      check_subscription api uid none = true)
    ∧ (∀ (api : Int → String → ChatMemberResult) (uid : Int),
      check_subscription api uid (some "") = true)
    ∧ (∀ (api : Int → String → ChatMemberResult) (uid : Int) (ch : String),
      ch ≠ "" → api uid ("@" ++ lstripAt ch) = ChatMemberResult.err →
      check_subscription api uid (some ch) = false) := by
  refine ⟨fun api uid => rfl, fun api uid => rfl, fun api uid ch h1 h2 => ?_⟩
  simp only [check_subscription]
  rw [if_neg (by simpa using h1), h2]

/-- Claim C10 witness: the empty channel is fail-open and a failing
platform is fail-closed on concrete inputs. -/
theorem check_subscription_fail_open_closed_witness :
    check_subscription errApi 1 none = true
    ∧ check_subscription errApi 1 (some "channel") = false :=
  ⟨check_subscription_fail_open_closed.1 errApi 1,
   check_subscription_fail_open_closed.2.2 errApi 1 "channel" (by decide) rfl⟩

/-- Claim C7: per-identity sync with the create action for a user with
no active key in the store fails immediately: it returns `False` and
issues no daemon call at all. -/
theorem sync_create_without_key_fails (d : Daemon) (s : DBState) (tg : Int)
    (user : DBUser)
    (hu : s.users.filter (fun u => u.telegram_id == tg) = [user])
    (hk : s.keys.filter (fun k => k.user_id == user.id && k.is_active) = []) :
    sync_user_on_action d (Except.ok s) tg SyncAction.create = (false, []) := by
  simp [sync_user_on_action, sync_user_on_action_body, hu, hk, ensure_user_exists]

/-- Claim C7 witness: a concrete store with the user present and no key. -/
theorem sync_create_without_key_fails_witness :
    sync_user_on_action alwaysOkDaemon
        (Except.ok (⟨[⟨1, 10⟩], [], 1⟩ : DBState)) 10 SyncAction.create
      = (false, []) :=
  sync_create_without_key_fails alwaysOkDaemon ⟨[⟨1, 10⟩], [], 1⟩ 10 ⟨1, 10⟩
    (by decide) (by decide)

/-- Claim C5: in both renew paths — the sync service's
`_renew_user_key` and the chat handler `renew_callback` — whenever a
provisioning call appears in the emitted daemon-call trace, the trace is
exactly the removal of the same display tag followed by that
provisioning call, in that order. -/
theorem renew_remove_before_provision :
    (∀ (d : Daemon) (s : DBState) (tg : Int) (e u' : String),
      XrayAction.provision e u'
          ∈ (sync_user_on_action d (Except.ok s) tg SyncAction.renew).2 →
      (sync_user_on_action d (Except.ok s) tg SyncAction.renew).2
        = [XrayAction.remove e, XrayAction.provision e u'])
    ∧ (∀ (d : Daemon) (s : DBState) (key_id : Nat) (nu : String) (now : Int)
        (e u' : String),
      XrayAction.provision e u' ∈ (renew_callback d s key_id nu now).2 →
      (renew_callback d s key_id nu now).2
        = [XrayAction.remove e, XrayAction.provision e u']) := by
  constructor
  · intro d s tg e u' hmem
    rcases hu : s.users.filter (fun u => u.telegram_id == tg) with _ | ⟨user, rest⟩
    · simp [sync_user_on_action, sync_user_on_action_body, hu] at hmem
    · rcases rest with _ | ⟨u2, rest2⟩
      · rcases hk : (s.keys.filter fun k => k.user_id == user.id && k.is_active).find?
            (fun k => k.is_active) with _ | k
        · simp [sync_user_on_action, sync_user_on_action_body, hu,
            renew_user_key, hk] at hmem
        · simp only [sync_user_on_action, sync_user_on_action_body, hu,
            renew_user_key, hk, List.mem_cons, List.not_mem_nil, or_false,
            reduceCtorEq, false_or, XrayAction.provision.injEq] at hmem
          obtain ⟨rfl, rfl⟩ := hmem
          simp [sync_user_on_action, sync_user_on_action_body, hu,
            renew_user_key, hk]
      · simp [sync_user_on_action, sync_user_on_action_body, hu] at hmem
  · intro d s key_id nu now e u' hmem
    rcases hk : s.keys.filter (fun k => k.id == key_id && k.is_active)
        with _ | ⟨key, krest⟩
    · simp [renew_callback, hk] at hmem
    · rcases krest with _ | ⟨k2, krest2⟩
      · rcases hu : s.users.filter (fun u => u.id == key.user_id)
            with _ | ⟨user, urest⟩
        · simp [renew_callback, hk, hu] at hmem
        · rcases urest with _ | ⟨x2, urest2⟩
          · cases ha : d.addOk (displayTag user.id) nu with
            | false => simp [renew_callback, hk, hu, ha] at hmem
            | true =>
              simp only [renew_callback, hk, hu, ha, if_pos, List.mem_cons,
                List.not_mem_nil, or_false, reduceCtorEq, false_or,
                XrayAction.provision.injEq] at hmem
              obtain ⟨rfl, rfl⟩ := hmem
              simp [renew_callback, hk, hu, ha]
          · simp [renew_callback, hk, hu] at hmem
      · simp [renew_callback, hk] at hmem

/-- Claim C5 witness: a concrete renewal through the sync service emits
the removal first, then the provisioning of the active key's uuid. -/
theorem renew_remove_before_provision_witness :
    (sync_user_on_action alwaysOkDaemon
        (Except.ok (⟨[⟨1, 10⟩],
          [⟨5, 1, "old", true, 0, some 10, 1073741824, 0⟩], 6⟩ : DBState))
        10 SyncAction.renew).2
      = [XrayAction.remove "user_1@xray.com",
         XrayAction.provision "user_1@xray.com" "old"] :=
  renew_remove_before_provision.1 alwaysOkDaemon
    ⟨[⟨1, 10⟩], [⟨5, 1, "old", true, 0, some 10, 1073741824, 0⟩], 6⟩
    10 "user_1@xray.com" "old" (by decide)

/-- Claim C6 counterexample: the chat renew handler mutates the key
row's uuid in place.  Starting from a store whose single key row has id
5 and uuid "old", the renewal leaves exactly one key row, still id 5 and
still active, with the fresh uuid — no new row is inserted and the old
key is not deactivated. -/
theorem renew_mutates_uuid_in_place_counterexample :
    ((renew_callback alwaysOkDaemon
        (⟨[⟨1, 10⟩], [⟨5, 1, "old", true, 0, some 10, 1073741824, 0⟩], 6⟩ : DBState)
        5 "new" 100).1).keys
      = [⟨5, 1, "new", true, 100, some 2592100, 1073741824, 0⟩] := by
  decide

/-- Claim C6 amended: renewal through the chat handler updates the
existing key row in place — the row count is unchanged, and the row
keeps its id while receiving the fresh uuid, a new creation time, a
30-day expiry and a reset byte counter — rather than deactivating the
old row and inserting a new one. -/
theorem renew_updates_row_in_place (d : Daemon) (s : DBState) (key_id : Nat)
    (nu : String) (now : Int) (key : UserKey) (user : DBUser)
    (h1 : s.keys.filter (fun k => k.id == key_id && k.is_active) = [key])
    (h2 : s.users.filter (fun u => u.id == key.user_id) = [user])
    (h3 : d.addOk (displayTag user.id) nu = true) :
    ((renew_callback d s key_id nu now).1).keys
      = s.keys.map (renewRow key_id nu now)
    ∧ ((renew_callback d s key_id nu now).1).keys.length = s.keys.length
    ∧ ({ key with
         uuid := nu
         created_at := now
         expires_at := some (now + 30 * 86400)
         used_bytes := 0 } : UserKey)
        ∈ ((renew_callback d s key_id nu now).1).keys := by
  have hkeys : ((renew_callback d s key_id nu now).1).keys
      = s.keys.map (renewRow key_id nu now) := by
    simp [renew_callback, h1, h2, h3]
  refine ⟨hkeys, by rw [hkeys]; simp, ?_⟩
  rw [hkeys]
  have hkmem : key ∈ s.keys.filter (fun k => k.id == key_id && k.is_active) := by
    rw [h1]; exact List.mem_singleton_self _
  have hcond : (key.id == key_id) = true := by
    have hpk := List.of_mem_filter hkmem
    rw [Bool.and_eq_true] at hpk
    exact hpk.1
  have himg : renewRow key_id nu now key
      = { key with
          uuid := nu
          created_at := now
          expires_at := some (now + 30 * 86400)
          used_bytes := 0 } := by
    simp [renewRow, hcond]
  rw [← himg]
  exact List.mem_map_of_mem _ (List.mem_of_mem_filter hkmem)

/-- Claim C6 amended witness: the in-place update on a concrete store. -/
theorem renew_updates_row_in_place_witness :
    ((renew_callback alwaysOkDaemon
        (⟨[⟨2, 20⟩], [⟨7, 2, "aaa", true, 0, some 10, 1073741824, 5⟩], 8⟩ : DBState)
        7 "bbb" 50).1).keys.length = 1 :=
  (renew_updates_row_in_place alwaysOkDaemon
    ⟨[⟨2, 20⟩], [⟨7, 2, "aaa", true, 0, some 10, 1073741824, 5⟩], 8⟩
    7 "bbb" 50 ⟨7, 2, "aaa", true, 0, some 10, 1073741824, 5⟩ ⟨2, 20⟩
    (by decide) (by decide) rfl).2.1

/-- Claim C1 counterexample: the store operation `create_key` inserts a
new active key without deactivating the user's prior active key, so two
successive `create_key` calls leave two active keys for the same user. -/
theorem create_key_breaks_single_active_invariant :
    (activeKeysFor
      (create_key
        (create_key (⟨[⟨1, 10⟩], [], 1⟩ : DBState) 1 "a" 0 30 1).2
        1 "b" 0 30 1).2 1).length = 2 := by
  decide

/-- Claim C1 amended: the chat-triggered create flow preserves the
at-most-one-active-key invariant (it inserts a key only when the user
has no active key), and `Database.generate_key` cannot violate it either
because its always-taken error path — a `NameError` on the unimported
`uuid` module, rolled back by its handler — returns no key and leaves
the store unchanged; the module-level `create_key`, however, inserts a
new active key without deactivating prior ones and so does not enforce
the invariant. -/
theorem single_active_key_chat_create_only :
    (∀ (s : DBState) (uid : Nat) (dv gb : Int),
      generate_key s uid dv gb = (none, s))
    ∧ (∀ (d : Daemon) (s : DBState) (tg : Int) (nu : String) (now : Int) (uid : Nat),
      (activeKeysFor s uid).length ≤ 1 →
      (activeKeysFor (chatCreateFlow d s tg nu now) uid).length ≤ 1) := by
  constructor
  · intro s uid dv gb
    rfl
  · intro d s tg nu now uid hle
    rcases hu : s.users.filter (fun u => u.telegram_id == tg) with _ | ⟨db_user, urest⟩
    · simpa [chatCreateFlow, hu] using hle
    · rcases urest with _ | ⟨x, xr⟩
      · rcases hk : s.keys.filter (fun k => k.user_id == db_user.id && k.is_active)
            with _ | ⟨k0, krest⟩
        · cases ha : d.addOk (displayTagTg tg) nu with
          | false => simpa [chatCreateFlow, hu, hk, ha] using hle
          | true =>
            have hstate : chatCreateFlow d s tg nu now
                = { s with
                    keys := s.keys ++
                      [{ id := s.nextKeyId
                         user_id := db_user.id
                         uuid := nu
                         is_active := true
                         created_at := now
                         expires_at := some (now + 30 * 86400)
                         data_limit_bytes := 1073741824
                         used_bytes := 0 }]
                    nextKeyId := s.nextKeyId + 1 } := by
              simp [chatCreateFlow, hu, hk, ha]
            rw [hstate]
            unfold activeKeysFor at hle ⊢
            rw [List.filter_append]
            by_cases huid : uid = db_user.id
            · subst huid
              rw [hk, List.nil_append]
              exact le_trans (List.length_filter_le _ _) (by simp)
            · have hnew : ((db_user.id == uid) && true) = false := by
                simp only [Bool.and_true, beq_eq_false_iff_ne, ne_eq]
                exact fun h => huid h.symm
              simpa [hnew] using hle
        · rcases krest with _ | ⟨k1, krest2⟩
          · simpa [chatCreateFlow, hu, hk] using hle
          · simpa [chatCreateFlow, hu, hk] using hle
      · simpa [chatCreateFlow, hu] using hle

lemma fullSyncAddLoop_count (d : Daemon) (keys : List UserKey) :
    ∀ rows stats emails tr, (∀ u ∈ rows, (lastActiveKey keys u.id).isSome) →
      ((fullSyncAddLoop d [] keys rows stats emails tr).1).added
          + ((fullSyncAddLoop d [] keys rows stats emails tr).1).errors
        = stats.added + stats.errors + rows.length := by
  intro rows
  induction rows with
  | nil => intro stats emails tr _; simp [fullSyncAddLoop]
  | cons u rest ih =>
    intro stats emails tr hall
    obtain ⟨k, hk⟩ := Option.isSome_iff_exists.mp (hall u (List.mem_cons_self u rest))
    have hrest : ∀ v ∈ rest, (lastActiveKey keys v.id).isSome :=
      fun v hv => hall v (List.mem_cons_of_mem _ hv)
    cases ha : d.addOk (displayTag u.id) k.uuid with
    | true =>
      simp only [fullSyncAddLoop, hk]
      simp only [List.contains, List.elem_nil, Bool.false_eq_true, if_false, ha, if_true]
      rw [ih _ _ _ hrest]
      simp only [List.length_cons]
      omega
    | false =>
      simp only [fullSyncAddLoop, hk]
      simp only [List.contains, List.elem_nil, Bool.false_eq_true, if_false, ha]
      rw [ih _ _ _ hrest]
      simp only [List.length_cons]
      omega

lemma mem_join_isSome (s : DBState) :
    ∀ u ∈ joinUsersActive s, (lastActiveKey s.keys u.id).isSome := by
  intro u hu
  unfold joinUsersActive at hu
  rw [List.mem_flatMap] at hu
  obtain ⟨v, _, hmem⟩ := hu
  rw [List.mem_map] at hmem
  obtain ⟨k, hkmem, rfl⟩ := hmem
  unfold lastActiveKey
  have hne : s.keys.filter (fun kk => kk.user_id == v.id && kk.is_active) ≠ [] :=
    List.ne_nil_of_mem hkmem
  simpa [List.getLast?_isSome] using hne

/-- Claim C2 counterexample: full reconciliation is not idempotent.  On
a store with one user holding one active key and an always-succeeding
daemon, the second run's summary is not all-zero: because the observed
set is always empty, the run re-provisions the key again. -/
theorem full_sync_not_idempotent_counterexample :
    (full_sync alwaysOkDaemon
      (full_sync alwaysOkDaemon
        (⟨[⟨1, 10⟩], [⟨1, 1, "u1", true, 0, some 1000, 1073741824, 0⟩], 2⟩
          : DBState)).2.2).1
      ≠ (⟨0, 0, 0⟩ : SyncStats) := by
  decide

/-- Claim C2 amended: `full_sync` writes nothing to the store, so a
second run returns exactly the first run's result — and that result is
the all-zero summary precisely when no user holds an active key; with
any active key present, every run (the second included) re-issues its
provisioning because the observed set is always empty. -/
theorem full_sync_second_run_equals_first (d : Daemon) (s : DBState) :
    full_sync d ((full_sync d s).2.2) = full_sync d s
    ∧ ((full_sync d s).1 = ⟨0, 0, 0⟩ ↔ joinUsersActive s = []) := by
  refine ⟨rfl, ?_, ?_⟩
  · intro h
    have hc := fullSyncAddLoop_count d s.keys (joinUsersActive s) ⟨0, 0, 0⟩ [] []
      (mem_join_isSome s)
    have hstats : (full_sync d s).1
        = (fullSyncAddLoop d [] s.keys (joinUsersActive s) ⟨0, 0, 0⟩ [] []).1 := by
      simp [full_sync, get_xray_users, fullSyncRemoveLoop]
    have hzero : (fullSyncAddLoop d [] s.keys (joinUsersActive s) ⟨0, 0, 0⟩ [] []).1
        = (⟨0, 0, 0⟩ : SyncStats) := hstats.symm.trans h
    rw [hzero] at hc
    have hlen : (joinUsersActive s).length = 0 := by
      simp only at hc
      omega
    exact List.length_eq_zero.mp hlen
  · intro h
    have hstats : (full_sync d s).1
        = (fullSyncAddLoop d [] s.keys (joinUsersActive s) ⟨0, 0, 0⟩ [] []).1 := by
      simp [full_sync, get_xray_users, fullSyncRemoveLoop]
    rw [hstats, h]
    rfl

/-- Claim C2 amended witness: on the empty store the summary is
all-zero. -/
theorem full_sync_second_run_equals_first_witness :
    (full_sync alwaysOkDaemon (⟨[], [], 1⟩ : DBState)).1 = ⟨0, 0, 0⟩ :=
  (full_sync_second_run_equals_first alwaysOkDaemon ⟨[], [], 1⟩).2.mpr rfl

lemma fullSyncAddLoop_trace_mono (d : Daemon) (keys : List UserKey) :
    ∀ rows stats emails tr a, a ∈ tr →
      a ∈ (fullSyncAddLoop d [] keys rows stats emails tr).2.2 := by
  intro rows
  induction rows with
  | nil => intro stats emails tr a ha; exact ha
  | cons u rest ih =>
    intro stats emails tr a ha
    cases hk : lastActiveKey keys u.id with
    | none =>
      simp only [fullSyncAddLoop, hk]
      exact ih _ _ _ _ ha
    | some k =>
      cases hadd : d.addOk (displayTag u.id) k.uuid with
      | true =>
        simp only [fullSyncAddLoop, hk]
        simp only [List.contains, List.elem_nil, Bool.false_eq_true, if_false, hadd,
          if_true]
        exact ih _ _ _ _ (List.mem_append_left _ ha)
      | false =>
        simp only [fullSyncAddLoop, hk]
        simp only [List.contains, List.elem_nil, Bool.false_eq_true, if_false, hadd]
        exact ih _ _ _ _ (List.mem_append_left _ ha)

lemma fullSyncAddLoop_mem_provision (d : Daemon) (keys : List UserKey) :
    ∀ rows stats emails tr u k, u ∈ rows → lastActiveKey keys u.id = some k →
      XrayAction.provision (displayTag u.id) k.uuid
        ∈ (fullSyncAddLoop d [] keys rows stats emails tr).2.2 := by
  intro rows
  induction rows with
  | nil => intro stats emails tr u k hu _; exact absurd hu (List.not_mem_nil u)
  | cons v rest ih =>
    intro stats emails tr u k hu hk
    rcases List.mem_cons.mp hu with rfl | hu'
    · cases hadd : d.addOk (displayTag u.id) k.uuid with
      | true =>
        simp only [fullSyncAddLoop, hk]
        simp only [List.contains, List.elem_nil, Bool.false_eq_true, if_false, hadd,
          if_true]
        exact fullSyncAddLoop_trace_mono d keys rest _ _ _ _
          (List.mem_append_right _ (List.mem_singleton_self _))
      | false =>
        simp only [fullSyncAddLoop, hk]
        simp only [List.contains, List.elem_nil, Bool.false_eq_true, if_false, hadd]
        exact fullSyncAddLoop_trace_mono d keys rest _ _ _ _
          (List.mem_append_right _ (List.mem_singleton_self _))
    · cases hk2 : lastActiveKey keys v.id with
      | none =>
        simp only [fullSyncAddLoop, hk2]
        exact ih _ _ _ _ _ hu' hk
      | some k2 =>
        cases hadd : d.addOk (displayTag v.id) k2.uuid with
        | true =>
          simp only [fullSyncAddLoop, hk2]
          simp only [List.contains, List.elem_nil, Bool.false_eq_true, if_false, hadd,
            if_true]
          exact ih _ _ _ _ _ hu' hk
        | false =>
          simp only [fullSyncAddLoop, hk2]
          simp only [List.contains, List.elem_nil, Bool.false_eq_true, if_false, hadd]
          exact ih _ _ _ _ _ hu' hk

/-- Claim C3 counterexample: full reconciliation applies no lifecycle
policy.  A store whose only key is active but already expired (expiry 1,
trace evaluated with the key expired at time 100) still has that key
provisioned to the daemon, and the store comes back with the key still
active — nothing is deactivated before diffing. -/
theorem full_sync_provisions_expired_key_counterexample :
    UserKey.is_expired ⟨9, 3, "zzz", true, 0, some 1, 1073741824, 0⟩ 100 = true
    ∧ (full_sync alwaysOkDaemon (⟨[⟨3, 30⟩],
        [⟨9, 3, "zzz", true, 0, some 1, 1073741824, 0⟩], 10⟩ : DBState)).2.1
      = [XrayAction.provision "user_3@xray.com" "zzz"]
    ∧ (full_sync alwaysOkDaemon (⟨[⟨3, 30⟩],
        [⟨9, 3, "zzz", true, 0, some 1, 1073741824, 0⟩], 10⟩ : DBState)).2.2
      = ⟨[⟨3, 30⟩], [⟨9, 3, "zzz", true, 0, some 1, 1073741824, 0⟩], 10⟩ := by
  refine ⟨by decide, by decide, by decide⟩

/-- Claim C3 amended: full reconciliation ignores expiry and quota
entirely: every user's active key is provisioned to the daemon whatever
its expiry time or consumption, and the pass deactivates nothing — the
store is returned unchanged. -/
theorem full_sync_ignores_lifecycle (d : Daemon) (s : DBState) (u : DBUser)
    (k : UserKey) (hu : u ∈ s.users) (hk : lastActiveKey s.keys u.id = some k) :
    XrayAction.provision (displayTag u.id) k.uuid ∈ (full_sync d s).2.1
    ∧ (full_sync d s).2.2 = s := by
  refine ⟨?_, rfl⟩
  have hujoin : u ∈ joinUsersActive s := by
    unfold joinUsersActive
    rw [List.mem_flatMap]
    refine ⟨u, hu, ?_⟩
    have hne : s.keys.filter (fun kk => kk.user_id == u.id && kk.is_active) ≠ [] := by
      intro hnil
      unfold lastActiveKey at hk
      rw [hnil] at hk
      simp at hk
    obtain ⟨x, hx⟩ := List.exists_mem_of_ne_nil _ hne
    rw [List.mem_map]
    exact ⟨x, hx, rfl⟩
  have hmem := fullSyncAddLoop_mem_provision d s.keys (joinUsersActive s)
    ⟨0, 0, 0⟩ [] [] u k hujoin hk
  simpa [full_sync, get_xray_users, fullSyncRemoveLoop] using hmem

/-- Claim C3 amended witness: the expired active key of a concrete store
is provisioned and the store is unchanged. -/
theorem full_sync_ignores_lifecycle_witness :
    XrayAction.provision (displayTag 4) "qqq"
        ∈ (full_sync alwaysOkDaemon (⟨[⟨4, 40⟩],
            [⟨11, 4, "qqq", true, 0, some 1, 1073741824, 0⟩], 12⟩ : DBState)).2.1
    ∧ (full_sync alwaysOkDaemon (⟨[⟨4, 40⟩],
        [⟨11, 4, "qqq", true, 0, some 1, 1073741824, 0⟩], 12⟩ : DBState)).2.2
      = ⟨[⟨4, 40⟩], [⟨11, 4, "qqq", true, 0, some 1, 1073741824, 0⟩], 12⟩ :=
  full_sync_ignores_lifecycle alwaysOkDaemon
    ⟨[⟨4, 40⟩], [⟨11, 4, "qqq", true, 0, some 1, 1073741824, 0⟩], 12⟩
    ⟨4, 40⟩ ⟨11, 4, "qqq", true, 0, some 1, 1073741824, 0⟩
    (by decide) (by decide)

/-- Claim C1 amended witness: both conjuncts on concrete stores. -/
theorem single_active_key_chat_create_only_witness :
    generate_key (⟨[⟨1, 10⟩],
        [⟨1, 1, "a", true, 0, some 10, 1073741824, 0⟩], 2⟩ : DBState) 1 30 1
      = (none, ⟨[⟨1, 10⟩], [⟨1, 1, "a", true, 0, some 10, 1073741824, 0⟩], 2⟩)
    ∧ (activeKeysFor (chatCreateFlow alwaysOkDaemon
        (⟨[⟨1, 10⟩], [], 1⟩ : DBState) 10 "w" 0) 1).length ≤ 1 :=
  ⟨single_active_key_chat_create_only.1
    ⟨[⟨1, 10⟩], [⟨1, 1, "a", true, 0, some 10, 1073741824, 0⟩], 2⟩ 1 30 1,
   single_active_key_chat_create_only.2 alwaysOkDaemon
    ⟨[⟨1, 10⟩], [], 1⟩ 10 "w" 0 1 (by decide)⟩

end XrayBot
